import Mathlib

/-!
Verification of the gitlab3 binding-generation and request-resolution engine.

Shallow embedding of `gitlab3/__init__.py` and `gitlab3/exceptions.py`:
the pagination engine (`_query_list`, the closure of `_add_list_fn`),
the find engine (`_find_matches`, the closure of `_add_find_fn`),
the create-argument validation (the closure of `_add_create_fn`, with the
`sudo` optional parameter appended by `_add_api`), URL resolution
(`_get_keys`, `_get_url`), and the status-code to exception mapping
(`_code_to_exc`, `_check_status_code`, `_request`).

Python values are modelled as follows: an optional integer keyword argument
is `Option Int` (Python `None` is `none`; Python truthiness of an int is
`!= 0`); a request issued through `parent._get` is recorded as the pair of
the `page` and `per_page` entries of its `data` dict; a raised Python
exception is an explicit error value.  Loops that the source bounds only
by server behaviour take a fuel parameter; a `terminated := false` result
means the fuel ran out before the source loop exited.
-/

namespace Gitlab3

/-- The `page` and `per_page` entries of the `data` dict of one HTTP GET
issued while listing (`none` when the key is absent). -/
abbrev Req : Type := Option Int × Option Int

/-- Maximum `per_page` value allowed by GitLab when listing
(`_MAX_PER_PAGE = 100`). -/
def _MAX_PER_PAGE : Int := 100

/-- Result of a listing run: the requests issued in order, the raw objects
yielded in order, and whether the source loop exited (rather than the fuel
running out). -/
structure ListResult (Obj : Type) where
  requests : List Req
  objects : List Obj
  terminated : Bool
deriving DecidableEq, Repr

/-- Embedding of `_query_list` (gitlab3/__init__.py lines 39-62): starting
from `page`, fetch pages of size `_MAX_PER_PAGE`; stop on an empty page or
on a page equal to the previous one (`str(objs) == last_objs`), except that
at page 1 such a page makes the loop skip to page 2 (`page += 1; continue`)
without yielding and without updating `last_objs`. -/
def _query_list {Obj : Type} [DecidableEq Obj] (backend : Req → List Obj) :
    Nat → Nat → Option (List Obj) → ListResult Obj
  | 0, _, _ => ⟨[], [], false⟩
  | fuel + 1, page, lastObjs =>
    let objs := backend (some (page : Int), some _MAX_PER_PAGE)
    if objs = [] ∨ some objs = lastObjs then
      if page = 1 then
        let r := _query_list backend fuel 2 lastObjs
        ⟨(some (page : Int), some _MAX_PER_PAGE) :: r.requests, r.objects, r.terminated⟩
      else
        ⟨[(some (page : Int), some _MAX_PER_PAGE)], [], true⟩
    else
      let r := _query_list backend fuel (page + 1) (some objs)
      ⟨(some (page : Int), some _MAX_PER_PAGE) :: r.requests, objs ++ r.objects, r.terminated⟩

/-- One unfolding of the `_query_list` loop. -/
theorem _query_list_succ {Obj : Type} [DecidableEq Obj] (backend : Req → List Obj)
    (fuel page : Nat) (lastObjs : Option (List Obj)) :
    _query_list backend (fuel + 1) page lastObjs =
      if backend (some (page : Int), some _MAX_PER_PAGE) = [] ∨
          some (backend (some (page : Int), some _MAX_PER_PAGE)) = lastObjs then
        if page = 1 then
          ⟨(some (page : Int), some _MAX_PER_PAGE) ::
             (_query_list backend fuel 2 lastObjs).requests,
           (_query_list backend fuel 2 lastObjs).objects,
           (_query_list backend fuel 2 lastObjs).terminated⟩
        else
          ⟨[(some (page : Int), some _MAX_PER_PAGE)], [], true⟩
      else
        ⟨(some (page : Int), some _MAX_PER_PAGE) ::
           (_query_list backend fuel (page + 1)
             (some (backend (some (page : Int), some _MAX_PER_PAGE)))).requests,
         backend (some (page : Int), some _MAX_PER_PAGE) ++
           (_query_list backend fuel (page + 1)
             (some (backend (some (page : Int), some _MAX_PER_PAGE)))).objects,
         (_query_list backend fuel (page + 1)
           (some (backend (some (page : Int), some _MAX_PER_PAGE)))).terminated⟩ := rfl

/-- A non-empty page differing from the previous one is yielded and the
loop moves to the next page. -/
theorem _query_list_yield {Obj : Type} [DecidableEq Obj] (backend : Req → List Obj)
    (fuel page : Nat) (lastObjs : Option (List Obj))
    (hne : backend (some (page : Int), some _MAX_PER_PAGE) ≠ [])
    (hrep : some (backend (some (page : Int), some _MAX_PER_PAGE)) ≠ lastObjs) :
    _query_list backend (fuel + 1) page lastObjs =
      ⟨(some (page : Int), some _MAX_PER_PAGE) ::
         (_query_list backend fuel (page + 1)
           (some (backend (some (page : Int), some _MAX_PER_PAGE)))).requests,
       backend (some (page : Int), some _MAX_PER_PAGE) ++
         (_query_list backend fuel (page + 1)
           (some (backend (some (page : Int), some _MAX_PER_PAGE)))).objects,
       (_query_list backend fuel (page + 1)
         (some (backend (some (page : Int), some _MAX_PER_PAGE)))).terminated⟩ := by
  rw [_query_list_succ, if_neg]
  rintro (h | h)
  · exact hne h
  · exact hrep h

/-- An empty or repeated page at an index other than 1 stops the loop. -/
theorem _query_list_stop {Obj : Type} [DecidableEq Obj] (backend : Req → List Obj)
    (fuel page : Nat) (lastObjs : Option (List Obj))
    (h : backend (some (page : Int), some _MAX_PER_PAGE) = [] ∨
         some (backend (some (page : Int), some _MAX_PER_PAGE)) = lastObjs)
    (hp : page ≠ 1) :
    _query_list backend (fuel + 1) page lastObjs =
      ⟨[(some (page : Int), some _MAX_PER_PAGE)], [], true⟩ := by
  rw [_query_list_succ, if_pos h, if_neg hp]

/-- An empty or repeated page at index 1 makes the loop skip to page 2,
yielding nothing and keeping `last_objs`. -/
theorem _query_list_skip {Obj : Type} [DecidableEq Obj] (backend : Req → List Obj)
    (fuel : Nat) (lastObjs : Option (List Obj))
    (h : backend (some (1 : Int), some _MAX_PER_PAGE) = [] ∨
         some (backend (some (1 : Int), some _MAX_PER_PAGE)) = lastObjs) :
    _query_list backend (fuel + 1) 1 lastObjs =
      ⟨(some (1 : Int), some _MAX_PER_PAGE) ::
         (_query_list backend fuel 2 lastObjs).requests,
       (_query_list backend fuel 2 lastObjs).objects,
       (_query_list backend fuel 2 lastObjs).terminated⟩ := by
  have : ((1 : Nat) : Int) = (1 : Int) := by norm_num
  rw [_query_list_succ]
  simp only [this]
  rw [if_pos h]
  simp

/-- Python truthiness of an optional int keyword argument: `None` and `0`
are falsy. -/
def pyTruthy : Option Int → Bool
  | none => false
  | some n => n != 0

/-- The comparison `limit <= _MAX_PER_PAGE` (only evaluated when `limit`
is truthy, because of Python's short-circuiting `and`). -/
def pyLeMax : Option Int → Bool
  | none => false
  | some n => n ≤ _MAX_PER_PAGE

/-- Embedding of the `fn(limit=None, page=None, per_page=None, **data)`
closure created by `_add_list_fn` (gitlab3/__init__.py lines 67-98):
a truthy `limit` clears `page`/`per_page`; a truthy `limit <= 100` becomes
`per_page`; a truthy `page` or `per_page` issues one request; a remaining
truthy `limit` issues pages `1..ceil(limit/100)` truncating the last page
to `limit % 100` when that is nonzero; otherwise `_query_list` runs from
page 0. -/
def list_fn {Obj : Type} [DecidableEq Obj] (backend : Req → List Obj) (fuel : Nat)
    (limit page per_page : Option Int) : ListResult Obj :=
  let p := if pyTruthy limit then none else page
  let pp := if pyTruthy limit then none else per_page
  let pp := if pyTruthy limit && pyLeMax limit then limit else pp
  let lim := if pyTruthy limit && pyLeMax limit then none else limit
  if pyTruthy p || pyTruthy pp then
    let data : Req := ((if pyTruthy p then p else none), (if pyTruthy pp then pp else none))
    ⟨[data], backend data, true⟩
  else if pyTruthy lim then
    let l := lim.getD 0
    let numPages : Nat := ((l + 99) / 100).toNat
    let remainder : Int := l % 100
    let pages : List Nat := (List.range numPages).map (· + 1)
    ⟨pages.map (fun i : Nat => (some (i : Int), some _MAX_PER_PAGE)),
     pages.flatMap (fun i : Nat =>
       let objs := backend (some (i : Int), some _MAX_PER_PAGE)
       if remainder != 0 && i == numPages then objs.take remainder.toNat else objs),
     true⟩
  else
    _query_list backend fuel 0 none

/-- `list()` with no arguments is the unbounded `_query_list` run from
page 0. -/
theorem list_fn_unbounded {Obj : Type} [DecidableEq Obj] (backend : Req → List Obj)
    (fuel : Nat) :
    list_fn backend fuel none none none = _query_list backend fuel 0 none := rfl

/-- The constant `_MAX_PER_PAGE` is 100. -/
@[simp] theorem _MAX_PER_PAGE_eq : _MAX_PER_PAGE = (100 : Int) := rfl

end Gitlab3

namespace Gitlab3

/-- Concrete backend for witnesses: page 0 is `[1]`, page 1 is `[2]`, every
later page is `[3]`. -/
def cbABC : Req → List Nat := fun r =>
  if r.1 = some 0 then [1] else if r.1 = some 1 then [2] else [3]

end Gitlab3

namespace Gitlab3

/-- C1: for a backend whose pages 0, 1, 2 are the distinct non-empty lists
`A`, `B`, `C` and which answers `C` for every page index at least 3,
unbounded `list()` (no limit/page/per_page) terminates after requesting
pages 0, 1, 2, 3 — stopping because page 3 repeats page 2 — and yields
exactly `A ++ B ++ C`, each element once. -/
theorem list_unbounded_abc_terminates {Obj : Type} [DecidableEq Obj]
    (backend : Req → List Obj) (A B C : List Obj)
    (hA : A ≠ []) (hB : B ≠ []) (hC : C ≠ [])
    (hAB : A ≠ B) (hBC : B ≠ C) (_hAC : A ≠ C)
    (h0 : backend (some 0, some 100) = A)
    (h1 : backend (some 1, some 100) = B)
    (h2 : backend (some 2, some 100) = C)
    (h3 : ∀ p : Nat, 3 ≤ p → backend (some (p : Int), some 100) = C)
    (extraFuel : Nat) :
    list_fn backend (extraFuel + 4) none none none =
      ⟨[(some 0, some 100), (some 1, some 100), (some 2, some 100), (some 3, some 100)],
       A ++ B ++ C, true⟩ := by
  have h3' : backend (some 3, some 100) = C := h3 3 (by omega)
  have hM : some _MAX_PER_PAGE = some (100 : Int) := rfl
  rw [list_fn_unbounded]
  rw [show extraFuel + 4 = extraFuel + 3 + 1 from rfl]
  rw [_query_list_yield backend (extraFuel + 3) 0 none
        (by rw [show ((0 : Nat) : Int) = (0 : Int) from rfl, hM, h0]; exact hA)
        (by simp)]
  rw [show ((0 : Nat) : Int) = (0 : Int) from rfl, hM, h0]
  rw [show (0 : Nat) + 1 = 1 from rfl]
  rw [show extraFuel + 3 = extraFuel + 2 + 1 from rfl]
  rw [_query_list_yield backend (extraFuel + 2) 1 (some A)
        (by rw [show ((1 : Nat) : Int) = (1 : Int) from rfl, hM, h1]; exact hB)
        (by rw [show ((1 : Nat) : Int) = (1 : Int) from rfl, hM, h1]
            intro h
            exact hAB (Option.some_injective _ h).symm)]
  rw [show ((1 : Nat) : Int) = (1 : Int) from rfl, hM, h1]
  rw [show (1 : Nat) + 1 = 2 from rfl]
  rw [show extraFuel + 2 = extraFuel + 1 + 1 from rfl]
  rw [_query_list_yield backend (extraFuel + 1) 2 (some B)
        (by rw [show ((2 : Nat) : Int) = (2 : Int) from rfl, hM, h2]; exact hC)
        (by rw [show ((2 : Nat) : Int) = (2 : Int) from rfl, hM, h2]
            intro h
            exact hBC (Option.some_injective _ h).symm)]
  rw [show ((2 : Nat) : Int) = (2 : Int) from rfl, hM, h2]
  rw [show (2 : Nat) + 1 = 3 from rfl]
  rw [_query_list_stop backend extraFuel 3 (some C)
        (by rw [show ((3 : Nat) : Int) = (3 : Int) from rfl, hM, h3']; right; rfl)
        (by omega)]
  simp [_MAX_PER_PAGE]

/-- Witness for C1 at a concrete backend. -/
theorem list_unbounded_abc_terminates_witness :
    list_fn cbABC 4 none none none =
      ⟨[(some 0, some 100), (some 1, some 100), (some 2, some 100), (some 3, some 100)],
       [1, 2, 3], true⟩ := by
  have := list_unbounded_abc_terminates cbABC [1] [2] [3]
    (by decide) (by decide) (by decide) (by decide) (by decide) (by decide)
    (by decide) (by decide) (by decide)
    (by
      intro p hp
      have hp0 : ¬ ((some (p : Int), some (100 : Int)).1 = some 0) := by
        simp
        omega
      have hp1 : ¬ ((some (p : Int), some (100 : Int)).1 = some 1) := by
        simp
        omega
      simp only [cbABC, if_neg hp0, if_neg hp1])
    0
  simpa using this

/-- Concrete backend where pages 0 and 1 are both empty and page 2 is not:
used to refute the unrestricted form of C2. -/
def cbEmpty01 : Req → List Nat := fun r => if r.1 = some 2 then [1] else []

/-- C2 counterexample: for a backend whose page-0 and page-1 responses are
structurally identical (both empty) while page 2 differs, unbounded
`list()` stops at page 0: it never requests page 1 or page 2, contrary to
the claim that it skips to page 2. -/
theorem list_empty_page0_stops_immediately :
    list_fn cbEmpty01 5 none none none = ⟨[(some 0, some 100)], [], true⟩ ∧
    ¬ ((some (2 : Int), some (100 : Int)) ∈ (list_fn cbEmpty01 5 none none none).requests) := by
  constructor
  · rfl
  · decide

/-- C2 (amended with non-emptiness): for a backend whose pages 0 and 1 are
the same non-empty list `P` and whose page 2 is `Q ≠ P`, unbounded
`list()` does not stop at page 1: after requesting pages 0 and 1 and
yielding `P` exactly once, it continues the loop at page 2 (with the
repeat-comparison state still `P`), and page 2 is the next request
actually issued. -/
theorem list_page01_identical_skips_to_page2 {Obj : Type} [DecidableEq Obj]
    (backend : Req → List Obj) (P Q : List Obj) (fuel : Nat)
    (hP : P ≠ [])
    (h0 : backend (some 0, some 100) = P)
    (h1 : backend (some 1, some 100) = P)
    (h2 : backend (some 2, some 100) = Q)
    (hQ : Q ≠ P) :
    (list_fn backend (fuel + 2) none none none =
      ⟨(some 0, some 100) :: (some 1, some 100) ::
         (_query_list backend fuel 2 (some P)).requests,
       P ++ (_query_list backend fuel 2 (some P)).objects,
       (_query_list backend fuel 2 (some P)).terminated⟩)
    ∧ (_query_list backend (fuel + 1) 2 (some P)).requests.head? =
        some (some 2, some 100) := by
  constructor
  · rw [list_fn_unbounded]
    rw [show fuel + 2 = fuel + 1 + 1 from rfl]
    rw [_query_list_yield backend (fuel + 1) 0 none
          (by rw [show ((0 : Nat) : Int) = (0 : Int) from rfl,
                  show some _MAX_PER_PAGE = some (100 : Int) from rfl, h0]
              exact hP)
          (by simp)]
    rw [show ((0 : Nat) : Int) = (0 : Int) from rfl,
        show some _MAX_PER_PAGE = some (100 : Int) from rfl, h0]
    rw [show (0 : Nat) + 1 = 1 from rfl]
    rw [_query_list_skip backend fuel (some P)
          (by rw [show some _MAX_PER_PAGE = some (100 : Int) from rfl, h1]
              right
              rfl)]
    simp [_MAX_PER_PAGE_eq]
  · by_cases hQe : Q = []
    · rw [_query_list_stop backend fuel 2 (some P)
            (by rw [show ((2 : Nat) : Int) = (2 : Int) from rfl,
                    show some _MAX_PER_PAGE = some (100 : Int) from rfl, h2]
                left
                exact hQe)
            (by omega)]
      rfl
    · rw [_query_list_yield backend fuel 2 (some P)
            (by rw [show ((2 : Nat) : Int) = (2 : Int) from rfl,
                    show some _MAX_PER_PAGE = some (100 : Int) from rfl, h2]
                exact hQe)
            (by rw [show ((2 : Nat) : Int) = (2 : Int) from rfl,
                    show some _MAX_PER_PAGE = some (100 : Int) from rfl, h2]
                intro h
                exact hQ (Option.some_injective _ h))]
      rfl

/-- Concrete backend for the C2 witness: pages 0 and 1 are `[5]`, page 2
is `[6]`, later pages empty. -/
def cbPQ : Req → List Nat := fun r =>
  if r.1 = some 0 then [5] else if r.1 = some 1 then [5]
  else if r.1 = some 2 then [6] else []

/-- Witness for the amended C2 at a concrete backend. -/
theorem list_page01_identical_skips_to_page2_witness :
    (list_fn cbPQ 4 none none none =
      ⟨(some 0, some 100) :: (some 1, some 100) ::
         (_query_list cbPQ 2 2 (some [5])).requests,
       [5] ++ (_query_list cbPQ 2 2 (some [5])).objects,
       (_query_list cbPQ 2 2 (some [5])).terminated⟩)
    ∧ (_query_list cbPQ 3 2 (some [5])).requests.head? = some (some 2, some 100) :=
  list_page01_identical_skips_to_page2 cbPQ [5] [6] 2
    (by decide) (by decide) (by decide) (by decide) (by decide)

/-- C10: when `limit > 100`, the limited listing requests pages 1 through
`ceil(limit/100)`, while unbounded listing issues its first request at
page 0; consequently, on a 0-indexed backend, `list(limit=n)` need not be
a prefix of unbounded `list()` (witnessed concretely by `cbABC` with
`limit = 101`). -/
theorem limited_listing_starts_at_page_1 :
    (∀ (Obj : Type) [DecidableEq Obj] (backend : Req → List Obj) (fuel : Nat) (l : Int),
        100 < l →
        (list_fn backend fuel (some l) none none).requests =
          (List.range ((l + 99) / 100).toNat).map
            (fun i : Nat => (some ((i : Int) + 1), some 100)))
    ∧ (∀ (Obj : Type) [DecidableEq Obj] (backend : Req → List Obj) (fuel : Nat),
        (list_fn backend (fuel + 1) none none none).requests.head? =
          some (some 0, some 100))
    ∧ (List.isPrefixOf (list_fn cbABC 9 (some 101) none none).objects
        (list_fn cbABC 9 none none none).objects = false) := by
  refine ⟨?_, ?_, ?_⟩
  · intro Obj _ backend fuel l hl
    have htr : pyTruthy (some l) = true := by
      simp [pyTruthy]
      omega
    have hle : pyLeMax (some l) = false := by
      simp [pyLeMax]
      omega
    simp only [list_fn, htr, hle, Bool.true_and, if_false, if_true, Bool.and_false,
               pyTruthy, Bool.or_self, Option.getD_some, List.map_map]
    rw [if_neg (by simp)]
    rw [if_pos (by simp; omega)]
    simp only [_MAX_PER_PAGE_eq]
    apply List.map_congr_left
    intro i _
    simp [Function.comp]
  · intro Obj _ backend fuel
    rw [list_fn_unbounded, _query_list_succ]
    by_cases h : backend (some ((0 : Nat) : Int), some _MAX_PER_PAGE) = [] ∨
        some (backend (some ((0 : Nat) : Int), some _MAX_PER_PAGE)) =
          (none : Option (List Obj))
    · rw [if_pos h, if_neg (by omega)]
      rfl
    · rw [if_neg h]
      rfl
  · decide

/-- Witness for C10 at a concrete backend and limit. -/
theorem limited_listing_starts_at_page_1_witness :
    (list_fn cbABC 5 (some 101) none none).requests =
      [(some 1, some 100), (some 2, some 100)] := by
  rw [limited_listing_starts_at_page_1.1 Nat cbABC 5 101 (by norm_num)]
  decide

/-- Concrete backend distinguishing the request `(page=2, per_page=10)`
from every other request: used to refute the unrestricted form of C3. -/
def cbLim : Req → List Nat := fun r => if r = (some 2, some 10) then [7] else []

/-- C3 counterexample: with `limit=0` (a given, but falsy, limit), explicit
`page`/`per_page` are not ignored — `list(limit=0, page=2, per_page=10)`
issues the single request `(page=2, per_page=10)` while `list(limit=0)`
performs an unbounded listing from page 0, so the two calls differ. -/
theorem list_limit0_not_overriding :
    list_fn cbLim 5 (some 0) (some 2) (some 10) ≠ list_fn cbLim 5 (some 0) none none := by
  decide

/-- C3 (amended to nonzero limits): whenever a nonzero `limit` is given,
explicit `page` and `per_page` arguments are ignored — the call behaves
exactly like `list(limit=l)` — and a nonzero `limit <= 100` is served as a
single page request whose `per_page` is exactly that limit. -/
theorem list_nonzero_limit_overrides {Obj : Type} [DecidableEq Obj]
    (backend : Req → List Obj) (fuel : Nat) (l : Int) (page per_page : Option Int)
    (h : l ≠ 0) :
    (list_fn backend fuel (some l) page per_page = list_fn backend fuel (some l) none none)
    ∧ (l ≤ 100 →
        list_fn backend fuel (some l) page per_page =
          ⟨[(none, some l)], backend (none, some l), true⟩) := by
  have htr : pyTruthy (some l) = true := by
    simp [pyTruthy]
    exact h
  constructor
  · simp [list_fn, htr]
  · intro hle
    have hlemax : pyLeMax (some l) = true := by
      simp [pyLeMax, _MAX_PER_PAGE_eq]
      exact hle
    simp [list_fn, htr, hlemax, pyTruthy, h]

/-- Concrete backend answering `[9]` to the single request
`(per_page=5)`: used in the C3 witness. -/
def cbLimW : Req → List Nat := fun r => if r = (none, some 5) then [9] else []

/-- Witness for the amended C3 at `limit=5, page=2, per_page=10`. -/
theorem list_nonzero_limit_overrides_witness :
    (list_fn cbLimW 3 (some 5) (some 2) (some 10) = list_fn cbLimW 3 (some 5) none none)
    ∧ list_fn cbLimW 3 (some 5) (some 2) (some 10) = ⟨[(none, some 5)], [9], true⟩ := by
  have h := list_nonzero_limit_overrides cbLimW 3 5 (some 2) (some 10) (by norm_num)
  refine ⟨h.1, ?_⟩
  rw [h.2 (by norm_num)]
  rfl

end Gitlab3

namespace Gitlab3

/-- The exception classes of `gitlab3/exceptions.py` (all subclasses of
`GitLabException`). -/
inductive GitLabExc
  | missingRequiredAttribute
  | unauthorizedRequest
  | forbiddenRequest
  | resourceNotFound
  | requestNotSupported
  | resourceConflict
  | serverError
  | connectionError
deriving DecidableEq, Repr

/-- A Python exception escaping the engine: either one of the
`GitLabException` kinds, or a built-in exception the source raises
(`KeyError` from the `_code_to_exc` dict lookup, `TypeError` from argument
validation, `AttributeError` from `getattr` on a missing field). -/
inductive PyError
  | gitlab : GitLabExc → PyError
  | keyError
  | typeError
  | attributeError
deriving DecidableEq, Repr

/-- Embedding of the `_code_to_exc` dict (gitlab3/__init__.py lines
407-415): the lookup result for a status code, `none` when the key is
absent. -/
def _code_to_exc (code : Nat) : Option GitLabExc :=
  if code = 400 then some .missingRequiredAttribute
  else if code = 401 then some .unauthorizedRequest
  else if code = 403 then some .forbiddenRequest
  else if code = 404 then some .resourceNotFound
  else if code = 405 then some .requestNotSupported
  else if code = 409 then some .resourceConflict
  else if code = 500 then some .serverError
  else none

/-- Embedding of `_check_status_code` (lines 416-420): codes below 400
pass; otherwise `self._code_to_exc[status_code]` is raised — a `KeyError`
when the code is not a key of the dict. -/
def _check_status_code (code : Nat) : Option PyError :=
  if code < 400 then none
  else
    match _code_to_exc code with
    | some e => some (.gitlab e)
    | none => some .keyError

/-- An HTTP response as seen by `_request`: its status code, the result of
`json.loads` on its body (`none` when parsing raises `ValueError`), and
the raw body. -/
structure Response (β γ : Type) where
  status : Nat
  parsed : Option β
  content : γ
deriving DecidableEq, Repr

/-- What `_request` returns on success: the parsed payload, or the raw
body when parsing failed. -/
inductive ReqResult (β γ : Type)
  | payload : β → ReqResult β γ
  | raw : γ → ReqResult β γ
deriving DecidableEq, Repr

/-- Embedding of the tail of `_request` (lines 447-451): check the status
code, then return the parsed payload, falling back to the raw body. -/
def _request {β γ : Type} (r : Response β γ) : Except PyError (ReqResult β γ) :=
  match _check_status_code r.status with
  | some e => .error e
  | none =>
    match r.parsed with
    | some p => .ok (.payload p)
    | none => .ok (.raw r.content)

/-- C4: each status code in {400, 401, 403, 404, 405, 409, 500} makes the
transport raise exactly the corresponding `GitLabException` kind, and any
status code below 400 raises nothing, returning the parsed payload or the
raw body when parsing failed. -/
theorem status_mapping_round_trip {β γ : Type} (r : Response β γ) :
    (r.status = 400 → _request r = .error (.gitlab .missingRequiredAttribute))
    ∧ (r.status = 401 → _request r = .error (.gitlab .unauthorizedRequest))
    ∧ (r.status = 403 → _request r = .error (.gitlab .forbiddenRequest))
    ∧ (r.status = 404 → _request r = .error (.gitlab .resourceNotFound))
    ∧ (r.status = 405 → _request r = .error (.gitlab .requestNotSupported))
    ∧ (r.status = 409 → _request r = .error (.gitlab .resourceConflict))
    ∧ (r.status = 500 → _request r = .error (.gitlab .serverError))
    ∧ (r.status < 400 →
        _request r = .ok (match r.parsed with
          | some p => .payload p
          | none => .raw r.content)) := by
  refine ⟨?_, ?_, ?_, ?_, ?_, ?_, ?_, ?_⟩ <;> intro h <;>
    simp only [_request, _check_status_code, _code_to_exc, h] <;>
    first
      | rfl
      | (rw [if_pos trivial]
         cases hp : r.parsed <;> rfl)

/-- Witness for C4 at status codes 400 and 200. -/
theorem status_mapping_round_trip_witness :
    _request (⟨400, some 1, "t"⟩ : Response Nat String) =
      .error (.gitlab .missingRequiredAttribute)
    ∧ _request (⟨200, some 7, "t"⟩ : Response Nat String) = .ok (.payload 7) := by
  constructor
  · exact (status_mapping_round_trip ⟨400, some 1, "t"⟩).1 rfl
  · have h := (status_mapping_round_trip (⟨200, some 7, "t"⟩ : Response Nat String)).2.2.2.2.2.2.2
    exact h (by norm_num)

/-- C9: a status code at least 400 that is not a key of `_code_to_exc`
(such as 418 or 502) makes the status check raise a `KeyError` — a bare
lookup failure, not any `GitLabException` kind of the documented
taxonomy. -/
theorem unmapped_status_raises_keyerror (code : Nat)
    (hge : 400 ≤ code)
    (h400 : code ≠ 400) (h401 : code ≠ 401) (h403 : code ≠ 403) (h404 : code ≠ 404)
    (h405 : code ≠ 405) (h409 : code ≠ 409) (h500 : code ≠ 500) :
    _check_status_code code = some PyError.keyError
    ∧ ∀ e : GitLabExc, _check_status_code code ≠ some (PyError.gitlab e) := by
  have hlt : ¬ code < 400 := by omega
  have hmain : _check_status_code code = some PyError.keyError := by
    simp only [_check_status_code, _code_to_exc, if_neg hlt, if_neg h400, if_neg h401,
               if_neg h403, if_neg h404, if_neg h405, if_neg h409, if_neg h500]
  refine ⟨hmain, ?_⟩
  intro e he
  rw [hmain] at he
  exact PyError.noConfusion (Option.some_injective _ he)

/-- Witness for C9 at status code 418. -/
theorem unmapped_status_raises_keyerror_witness :
    _check_status_code 418 = some PyError.keyError :=
  (unmapped_status_raises_keyerror 418 (by norm_num) (by norm_num) (by norm_num)
    (by norm_num) (by norm_num) (by norm_num) (by norm_num) (by norm_num)).1

end Gitlab3

namespace Gitlab3

/-- A resource instance as `_find_matches` sees it: the attributes that
were set from the server payload at construction. -/
structure PyObj (α : Type) where
  fields : List (String × α)
deriving DecidableEq, Repr

/-- Result of a find: the first match or `None` (when `find_all` is
falsy), or the list of all matches (when `find_all` is truthy). -/
inductive FindResult (α : Type)
  | one : Option (PyObj α) → FindResult α
  | all : List (PyObj α) → FindResult α
deriving DecidableEq, Repr

/-- `getattr(obj, param)`: the attribute value, or an `AttributeError`
when the instance exposes no such attribute. -/
def getattr {α : Type} (obj : PyObj α) (param : String) : Except PyError α :=
  match obj.fields.lookup param with
  | some v => .ok v
  | none => .error .attributeError

/-- The inner loop of `_find_matches` (lines 111-114) on one candidate:
consult each predicate pair in order; `getattr` is evaluated before the
comparison, and the first unequal value stops the loop with a
non-match. -/
def match_params {α : Type} [DecidableEq α] (obj : PyObj α) :
    List (String × α) → Except PyError Bool
  | [] => .ok true
  | (param, val) :: rest =>
    match getattr obj param with
    | .error e => .error e
    | .ok w => if ¬ (w = val) then .ok false else match_params obj rest

/-- The outer loop of `_find_matches` (lines 108-122), carrying the `ret`
accumulator. -/
def find_matches_go {α : Type} [DecidableEq α] (kwargs : List (String × α))
    (find_all : Bool) : List (PyObj α) → List (PyObj α) → Except PyError (FindResult α)
  | [], acc => .ok (if find_all then .all acc.reverse else .one none)
  | obj :: rest, acc =>
    match match_params obj kwargs with
    | .error e => .error e
    | .ok true =>
      if find_all then find_matches_go kwargs find_all rest (obj :: acc)
      else .ok (.one (some obj))
    | .ok false => find_matches_go kwargs find_all rest acc

/-- Embedding of `_find_matches` (gitlab3/__init__.py lines 103-122). -/
def _find_matches {α : Type} [DecidableEq α] (objects : List (PyObj α))
    (kwargs : List (String × α)) (find_all : Bool) : Except PyError (FindResult α) :=
  find_matches_go kwargs find_all objects []

/-- C5 counterexample: with predicate `name=5`, a first candidate exposing
only `id` makes `_find_matches` raise `AttributeError`; it is not skipped,
and the second candidate — which would match — is never reached. -/
theorem find_missing_field_raises_cx :
    _find_matches [⟨[("id", 1)]⟩, ⟨[("name", 5), ("id", 2)]⟩]
        [("name", (5 : Nat))] false =
      .error .attributeError := by
  rfl

/-- C5 (amended): when matching reaches a predicate field that a candidate
does not expose — here, the first predicate on the first candidate —
`_find_matches` propagates an `AttributeError` from `getattr` instead of
treating the candidate as a non-match and continuing. -/
theorem find_missing_field_raises {α : Type} [DecidableEq α]
    (obj : PyObj α) (objs : List (PyObj α)) (k : String) (v : α)
    (kwargs : List (String × α)) (find_all : Bool)
    (h : obj.fields.lookup k = none) :
    _find_matches (obj :: objs) ((k, v) :: kwargs) find_all =
      .error .attributeError := by
  simp [_find_matches, find_matches_go, match_params, getattr, h]

/-- Witness for the amended C5 at a concrete candidate and predicate. -/
theorem find_missing_field_raises_witness :
    _find_matches [⟨[("id", 1)]⟩, ⟨[("name", (5 : Nat))]⟩] [("name", 5)] false =
      .error .attributeError :=
  find_missing_field_raises ⟨[("id", 1)]⟩ [⟨[("name", 5)]⟩] "name" 5 [] false (by decide)

/-- The keyword arguments of one call to the `fn(**kwargs)` closure
created by `_add_find_fn`: the three reserved control arguments and the
predicate pairs.  A present `cached` with value `[]` behaves like the
falsy `cached=None`. -/
structure FindCall (α : Type) where
  cached : Option (List (PyObj α))
  find_all : Option Bool
  sudoArg : Option α
  preds : List (String × α)
deriving DecidableEq, Repr

/-- The Python test `not kwargs` at the top of the find closure (line
128): true exactly when no keyword argument at all — control arguments
included — was supplied. -/
def kwargs_empty {α : Type} (c : FindCall α) : Bool :=
  c.cached.isNone && c.find_all.isNone && c.sudoArg.isNone && c.preds.isEmpty

/-- Embedding of the `fn(**kwargs)` closure created by `_add_find_fn`
(lines 127-150): raise `TypeError` when `kwargs` is empty; otherwise pop
the control arguments, fall back to a `_query_list` enumeration when
`cached` is absent or falsy, and run `_find_matches`.  The boolean paired
with the result records whether the listing was performed. -/
def find_fn {α : Type} [DecidableEq α] (backend : Req → List (PyObj α)) (fuel : Nat)
    (c : FindCall α) : Except PyError (Bool × FindResult α) :=
  if kwargs_empty c then .error .typeError
  else
    (_find_matches
      (if (c.cached.getD []).isEmpty then (_query_list backend fuel 0 none).objects
       else c.cached.getD [])
      c.preds (c.find_all.getD false)).map
      (fun res => ((c.cached.getD []).isEmpty, res))

/-- `match_params` never raises `TypeError`. -/
theorem match_params_ne_typeError {α : Type} [DecidableEq α] (obj : PyObj α) :
    ∀ kwargs : List (String × α),
      match_params obj kwargs ≠ Except.error PyError.typeError := by
  intro kwargs
  induction kwargs with
  | nil => simp [match_params]
  | cons head rest ih =>
    obtain ⟨param, val⟩ := head
    rw [match_params]
    cases h : getattr obj param with
    | error e =>
      cases hl : obj.fields.lookup param with
      | none =>
        rw [getattr, hl] at h
        cases h
        simp
      | some w =>
        rw [getattr, hl] at h
        cases h
    | ok w =>
      by_cases hv : w = val
      · simpa [hv] using ih
      · simp [hv]

/-- `find_matches_go` never raises `TypeError`. -/
theorem find_matches_go_ne_typeError {α : Type} [DecidableEq α]
    (kwargs : List (String × α)) (find_all : Bool) :
    ∀ objs acc : List (PyObj α),
      find_matches_go kwargs find_all objs acc ≠ Except.error PyError.typeError := by
  intro objs
  induction objs with
  | nil =>
    intro acc
    rw [find_matches_go]
    split <;> simp
  | cons obj rest ih =>
    intro acc
    rw [find_matches_go]
    cases hm : match_params obj kwargs with
    | error e =>
      intro h
      cases h
      exact match_params_ne_typeError obj kwargs hm
    | ok b =>
      cases b
      · exact ih acc
      · by_cases hf : find_all = true
        · simpa [hf] using ih (obj :: acc)
        · simp [hf]

/-- `_find_matches` never raises `TypeError`. -/
theorem _find_matches_ne_typeError {α : Type} [DecidableEq α]
    (objects : List (PyObj α)) (kwargs : List (String × α)) (find_all : Bool) :
    _find_matches objects kwargs find_all ≠ Except.error PyError.typeError :=
  find_matches_go_ne_typeError kwargs find_all objects []

/-- C6 (amended): the find closure raises `TypeError` exactly when the
whole keyword-argument set — the reserved control arguments `cached`,
`find_all` and `sudo` included — is empty; the emptiness test runs before
the control arguments are removed, so a call supplying only control
arguments is not rejected. -/
theorem find_empty_kwargs_typeerror {α : Type} [DecidableEq α]
    (backend : Req → List (PyObj α)) (fuel : Nat) (c : FindCall α) :
    find_fn backend fuel c = .error PyError.typeError ↔ kwargs_empty c = true := by
  constructor
  · intro h
    by_cases hk : kwargs_empty c = true
    · exact hk
    · rw [find_fn, if_neg hk] at h
      exfalso
      cases hm : _find_matches
          (if (c.cached.getD []).isEmpty then (_query_list backend fuel 0 none).objects
           else c.cached.getD [])
          c.preds (c.find_all.getD false) with
      | error e =>
        rw [hm] at h
        have he : e = PyError.typeError := by
          simpa [Except.map] using h
        exact _find_matches_ne_typeError _ _ _ (he ▸ hm)
      | ok res =>
        rw [hm] at h
        simp [Except.map] at h
  · intro hk
    rw [find_fn, if_pos hk]

/-- Concrete backend for the find claims: page 0 holds one object, later
pages are empty. -/
def cbFind : Req → List (PyObj Nat) := fun r =>
  if r.1 = some 0 then [⟨[("id", 1)]⟩] else []

/-- Witness for the amended C6: a find with no keyword arguments at all
raises `TypeError`. -/
theorem find_empty_kwargs_typeerror_witness :
    find_fn cbFind 3 (⟨none, none, none, []⟩ : FindCall Nat) = .error PyError.typeError :=
  (find_empty_kwargs_typeerror cbFind 3 _).mpr rfl

/-- C6 counterexample: a find whose predicate set is empty after excluding
the control arguments — here `find_all=True` and nothing else — is not
rejected: the emptiness check sees a non-empty `kwargs`, a full listing is
performed (the boolean component), and every listed object is returned. -/
theorem find_control_only_not_rejected :
    find_fn cbFind 5 (⟨none, some true, none, []⟩ : FindCall Nat) =
      .ok (true, .all [⟨[("id", 1)]⟩]) := by
  rfl

end Gitlab3

namespace Gitlab3

/-- Embedding of the argument validation and parameter loading of the
`fn(*args, **kwargs)` closure created by `_add_create_fn` (lines 174-193):
raise `TypeError` when fewer positionals than required parameters or more
than required plus optional; otherwise load the required parameters in
declared order and the remaining positionals onto the optional parameters
in declared order. -/
def create_fn {α : Type} (required_params optional_params : List String)
    (args : List α) (kwargs : List (String × α)) : Except PyError (List (String × α)) :=
  if args.length < required_params.length then .error .typeError
  else if required_params.length + optional_params.length < args.length then .error .typeError
  else
    .ok (kwargs ++ required_params.zip args ++
         optional_params.zip (args.drop required_params.length))

/-- The create closure as actually bound by `_add_api` (line 277), which
appends `'sudo'` to the resource's declared optional parameters before
`_add_create_fn` captures them. -/
def add_create_fn {α : Type} (required_params optional_params : List String)
    (args : List α) (kwargs : List (String × α)) : Except PyError (List (String × α)) :=
  create_fn required_params (optional_params ++ ["sudo"]) args kwargs

/-- Whether an `Except` computation succeeded. -/
def exceptOk {ε β : Type} : Except ε β → Bool
  | .ok _ => true
  | .error _ => false

/-- C7 counterexample: a resource declaring 2 required and 1 optional
parameter accepts a call with 4 positional arguments — the fourth is
loaded onto the bind-time `'sudo'` optional parameter — where the claim
says it is rejected. -/
theorem create_four_args_accepted :
    add_create_fn ["a", "b"] ["c"] [1, 2, 3, 4] ([] : List (String × Nat)) =
      .ok [("a", 1), ("b", 2), ("c", 3), ("sudo", 4)] := by
  rfl

/-- C7 (amended): because `_add_api` appends `'sudo'` to the optional
parameters before the create closure is built, a call with `P` positional
arguments passes validation iff `R <= P <= R + O + 1` where `R` and `O`
are the declared required and optional counts; in particular 2 required
and 1 declared optional accept 2, 3 or 4 positionals and reject 1 or 5. -/
theorem create_arity_includes_sudo {α : Type} (required optional : List String)
    (args : List α) (kwargs : List (String × α)) :
    exceptOk (add_create_fn required optional args kwargs) =
      (decide (required.length ≤ args.length) &&
       decide (args.length ≤ required.length + optional.length + 1)) := by
  simp only [add_create_fn, create_fn, List.length_append, List.length_cons,
             List.length_nil]
  by_cases h1 : args.length < required.length
  · rw [if_pos h1]
    simp [exceptOk]
    omega
  · rw [if_neg h1]
    by_cases h2 : required.length + (optional.length + (0 + 1)) < args.length
    · rw [if_pos h2]
      simp [exceptOk]
      omega
    · rw [if_neg h2]
      simp [exceptOk]
      omega

end Gitlab3

namespace Gitlab3

/-- One token of an API URL template: a literal piece, or one `:name`
placeholder (one match of the regex `:[^/]+`). -/
inductive UrlPart
  | lit : String → UrlPart
  | param : String → UrlPart
deriving DecidableEq, Repr

/-- The placeholder count of a template
(`len(re.findall(r':[^/]+', api_url))`). -/
def num_url_keys (url : List UrlPart) : Nat :=
  url.countP (fun part => match part with | .param _ => true | .lit _ => false)

/-- One `re.sub(r':[^/]+', str(key), api_url, 1)`: replace the leftmost
placeholder by the key, leaving everything else unchanged. -/
def sub_first (url : List UrlPart) (key : String) : List UrlPart :=
  match url with
  | [] => []
  | .lit s :: rest => .lit s :: sub_first rest key
  | .param _ :: rest => .lit key :: rest

/-- Embedding of `_get_keys` (lines 397-405): copy `addl_keys`, append the
ownership-chain identities walking upward, then reverse in place. -/
def _get_keys (addl_keys chain_ids : List String) : List String :=
  (addl_keys ++ chain_ids).reverse

/-- The Python slice `keys[-num:]` (the whole list when `num = 0` or when
`num` exceeds the length). -/
def py_tail_slice (keys : List String) (num : Nat) : List String :=
  if num = 0 then keys else keys.drop (keys.length - num)

/-- Embedding of `_get_url` (gitlab3/__init__.py lines 381-389): compute
the keys, keep only the trailing placeholder-count-many, substitute
placeholders left to right one per key, and prepend the base URL. -/
def _get_url (base_url : String) (api_url : List UrlPart)
    (addl_keys chain_ids : List String) : List UrlPart :=
  .lit base_url ::
    (py_tail_slice (_get_keys addl_keys chain_ids) (num_url_keys api_url)).foldl
      sub_first api_url

/-- Substituting one key removes exactly one placeholder (when any is
left). -/
theorem num_url_keys_sub_first (url : List UrlPart) (key : String) :
    num_url_keys (sub_first url key) = num_url_keys url - 1 := by
  induction url with
  | nil => rfl
  | cons head rest ih =>
    cases head with
    | lit s =>
      simp only [sub_first, num_url_keys, List.countP_cons] at *
      simpa using ih
    | param s =>
      simp [sub_first, num_url_keys, List.countP_cons]

/-- Folding the substitution over a key list removes one placeholder per
key (truncated at zero). -/
theorem num_url_keys_foldl (keys : List String) (url : List UrlPart) :
    num_url_keys (keys.foldl sub_first url) = num_url_keys url - keys.length := by
  induction keys generalizing url with
  | nil => simp
  | cons key rest ih =>
    rw [List.foldl_cons, ih, num_url_keys_sub_first, List.length_cons]
    omega

/-- The template with 2 placeholders used in the C8 counterexample. -/
def tmplIssues : List UrlPart :=
  [.lit "/projects/", .param "id", .lit "/issues/", .param "issue_id"]

/-- C8 counterexample: a template with 2 placeholders resolved against a
single-key ownership chain does not fail — there is no `MalformedTemplate`
error anywhere in the code — it silently returns a path in which the
second placeholder is left unsubstituted. -/
theorem get_url_missing_key_keeps_placeholder :
    _get_url "" tmplIssues [] ["5"] =
      [.lit "", .lit "/projects/", .lit "5", .lit "/issues/", .param "issue_id"]
    ∧ num_url_keys (_get_url "" tmplIssues [] ["5"]) = 1 := by
  constructor <;> rfl

/-- C8 (amended): URL resolution is total and never raises — when the
placeholder count and the substitutable-key count disagree after trimming,
it silently returns a path retaining one unsubstituted placeholder per
missing key (excess keys substitute nothing). -/
theorem get_url_mismatch_is_silent (base_url : String) (api_url : List UrlPart)
    (addl_keys chain_ids : List String) :
    num_url_keys (_get_url base_url api_url addl_keys chain_ids) =
      num_url_keys api_url -
        (py_tail_slice (_get_keys addl_keys chain_ids) (num_url_keys api_url)).length := by
  rw [_get_url]
  rw [show num_url_keys (.lit base_url ::
        (py_tail_slice (_get_keys addl_keys chain_ids) (num_url_keys api_url)).foldl
          sub_first api_url) =
      num_url_keys ((py_tail_slice (_get_keys addl_keys chain_ids)
          (num_url_keys api_url)).foldl sub_first api_url) from by
    simp [num_url_keys, List.countP_cons]]
  exact num_url_keys_foldl _ _

end Gitlab3
